import Mathlib

/-!
# Verification of the MahjongUtils drag-and-drop / touch input unification layer

This file is a shallow embedding of the input-unification core of
`MahjongUtils.js` (the `setupDragAndDrop` closure family, `removeDragAndDrop`,
`getElementFromPoint`) together with theorems settling the specification
claims about it.

Modelling conventions:
* DOM elements are identified by natural numbers; their immutable attributes
  (tag name, `draggable`, class list, `data-tile-id`, `data-drag-enabled`)
  live in an `ElemInfo` record looked up through a `Dom` environment.
* The only element property the core mutates is the inline `display` style
  (used by `getElementFromPoint` to temporarily hide the dragged element), so
  the mutable DOM state is a map `Nat → String` of inline display values,
  threaded explicitly.
* `document.elementFromPoint` is an opaque hit-test function of the current
  display map, supplied by the `Dom` environment.  The browser guarantee that
  an element with `display: none` is not rendered and can never be hit is
  stated as the predicate `noHitHidden` where a claim needs it.
* Caller-supplied handlers are external code: the model records which handlers
  were supplied, the `setData` calls the drag-start handler performs on the
  synthetic event, and whether the drop / drag-end handlers throw.  A handler
  invocation is recorded as a `Dispatch` in an output trace.  JavaScript
  exception propagation is modelled by the `threw` flag of `StepResult`:
  once a modelled handler throws, nothing later in the native handler body
  runs, and the closure state keeps whatever value it had at that moment.
* JavaScript string truthiness (`undefined` and `""` are falsy) is modelled
  by `truthyStr`; the string-keyed record `dragData` is an association list
  observed only through `jsGet`.
* Touch events carry the coordinates of their first touch point, which is
  exactly what `getEventCoordinates` extracts (`touches[0]` on
  touchstart/touchmove, `changedTouches[0]` on touchend/touchcancel).
-/

/-- JavaScript truthiness of a possibly-undefined string value
(`undefined` and the empty string are falsy). -/
def truthyStr : Option String → Bool
  | none => false
  | some s => s != ""

/-- Read a key of a string-keyed JavaScript object (`obj[key]`);
`none` models `undefined`. -/
def jsGet (m : List (String × String)) (k : String) : Option String :=
  (m.find? (fun p => p.1 == k)).map (fun p => p.2)

/-- Assign a key of a string-keyed JavaScript object (`obj[key] = v`).
The object is observed only through `jsGet`. -/
def jsSet (m : List (String × String)) (k v : String) : List (String × String) :=
  (k, v) :: m.filter (fun p => p.1 != k)

/-- The immutable attributes of a DOM element that the core inspects. -/
structure ElemInfo where
  tagName : String
  draggable : Bool
  classList : List String
  tileId : Option String
  dragEnabled : Option String
deriving DecidableEq

/-- The DOM environment: attributes of each element, its ancestor chain
(`parentChain e` lists the ancestors of `e` from parent to root, used by
`Element.closest`), and the browser hit test `document.elementFromPoint`
as a function of the current inline display map. -/
structure Dom where
  elem : Nat → ElemInfo
  parentChain : Nat → List Nat
  hitTest : (Nat → String) → Int → Int → Option Nat

/-- `Element.closest`: the first of the element itself and its ancestors
satisfying the selector predicate. -/
def closestSuchThat (dom : Dom) (e : Nat) (p : Nat → Bool) : Option Nat :=
  (e :: dom.parentChain e).find? p

/-- Whether a tag name is matched by the selector `button, a, input`
(HTML tag names are reported upper-case). -/
def isInteractiveTag (t : String) : Bool :=
  t == "BUTTON" || t == "A" || t == "INPUT"

/-- `MahjongUtils.getElementFromPoint(x, y, excludeElement)`: when an exclude
element is given, remember its inline display, set it to `"none"`, run the
browser hit test, restore the remembered display, and return the hit element.
The result pairs the display map after the call with the returned element. -/
def getElementFromPoint (dom : Dom) (disp : Nat → String) (x y : Int)
    (excludeElement : Option Nat) : (Nat → String) × Option Nat :=
  match excludeElement with
  | some e =>
      let originalDisplay := disp e
      let hidden : Nat → String := fun i => if i = e then "none" else disp i
      let element := dom.hitTest hidden x y
      let restored : Nat → String := fun i => if i = e then originalDisplay else hidden i
      (restored, element)
  | none => (disp, dom.hitTest disp x y)

/-- The drag-session closure state of `setupDragAndDrop`:
`isDragging`, `draggedElement`, `currentDropTarget`, `dragData`. -/
structure DragState where
  isDragging : Bool
  draggedElement : Option Nat
  currentDropTarget : Option Nat
  dragData : List (String × String)
deriving DecidableEq

/-- The initial (and post-reset) session state. -/
def emptyState : DragState :=
  { isDragging := false, draggedElement := none, currentDropTarget := none, dragData := [] }

/-- The caller-supplied handler set, as the core observes it: which handlers
exist, the `setData` calls the drag-start handler performs on its synthetic
event, and whether the drop / drag-end handlers throw when invoked. -/
structure Handlers where
  hasDragStart : Bool
  dragStartSets : List (String × String)
  hasDragOver : Bool
  hasDragLeave : Bool
  hasDrop : Bool
  dropThrows : Bool
  hasDragEnd : Bool
  dragEndThrows : Bool
deriving DecidableEq

/-- One handler invocation, with the data of the (synthetic or forwarded
native) event it receives.  `dropD` carries the session payload and the
dragged element's `data-tile-id` at dispatch time, the data its
`dataTransfer.getData` closure reads (see `dropGetData`). -/
inductive Dispatch where
  | dragStartD (target : Nat)
  | dragOverD (target : Nat) (x y : Int)
  | dragOverNativeD (target : Nat)
  | dragLeaveD (target : Nat)
  | dragLeaveNativeD (target : Nat)
  | dropD (target : Nat) (x y : Int) (payload : List (String × String))
      (draggedTileId : Option String)
  | dropNativeD (target : Nat)
  | dragEndD (target : Option Nat)
  | dragEndNativeD (target : Nat)
deriving DecidableEq

/-- Result of running one native event listener: the display map, the session
state, the trace of handler invocations, and whether a modelled handler threw
(aborting the rest of the listener body). -/
structure StepResult where
  disp : Nat → String
  state : DragState
  trace : List Dispatch
  threw : Bool

/-- The two native event kinds `unifiedDragStart` reacts to. -/
inductive StartEvent where
  | dragstartEv (target : Nat)
  | touchstartEv (x y : Int)
deriving DecidableEq

/-- `isDraggableElement` of `unifiedDragStart`:
`target.draggable === true || target.classList.contains('mahjong-tile') ||
target.dataset.tileId` (the last read with JavaScript truthiness). -/
def isDraggableElement (dom : Dom) (t : Nat) : Bool :=
  (dom.elem t).draggable || (dom.elem t).classList.contains "mahjong-tile" ||
    truthyStr (dom.elem t).tileId

/-- `isNonDraggableInteractive` of `unifiedDragStart`:
`tagName === 'BUTTON' || tagName === 'A' || tagName === 'INPUT' ||
target.closest('button, a, input')`. -/
def isNonDraggableInteractive (dom : Dom) (t : Nat) : Bool :=
  (dom.elem t).tagName == "BUTTON" || (dom.elem t).tagName == "A" ||
    (dom.elem t).tagName == "INPUT" ||
    (closestSuchThat dom t (fun i => isInteractiveTag (dom.elem i).tagName)).isSome

/-- `unifiedDragStart`: resolve the start target (hit test at the touch point
for touchstart, the native target for dragstart), test eligibility, and on
success open the session (`isDragging := true`, `draggedElement := target`,
`dragData := {}` — `currentDropTarget` is not touched) and invoke the
drag-start handler with a synthetic event whose `dataTransfer.setData`
mirrors into `dragData`. -/
def unifiedDragStart (dom : Dom) (h : Handlers) (ev : StartEvent)
    (disp : Nat → String) (s : DragState) : StepResult :=
  let targetElement : Option Nat :=
    match ev with
    | .touchstartEv x y => (getElementFromPoint dom disp x y none).2
    | .dragstartEv t => some t
  let draggableB : Bool :=
    match targetElement with
    | none => false
    | some t => isDraggableElement dom t
  let interactiveB : Bool :=
    match targetElement with
    | none => false
    | some t => isNonDraggableInteractive dom t
  if !draggableB || interactiveB then ⟨disp, s, [], false⟩
  else
    match targetElement with
    | none => ⟨disp, s, [], false⟩
    | some t =>
        let s1 : DragState :=
          { isDragging := true, draggedElement := some t,
            currentDropTarget := s.currentDropTarget, dragData := [] }
        if h.hasDragStart then
          ⟨disp,
           { s1 with dragData := h.dragStartSets.foldl (fun m kv => jsSet m kv.1 kv.2) [] },
           [Dispatch.dragStartD t], false⟩
        else ⟨disp, s1, [], false⟩

/-- The two native event kinds `unifiedDragOver` reacts to. -/
inductive OverEvent where
  | dragoverEv (target : Nat)
  | touchmoveEv (x y : Int)
deriving DecidableEq

/-- `unifiedDragOver`: a native dragover is always forwarded unchanged to the
over handler.  A touchmove is processed only while a session is active: the
element under the touch point is resolved excluding the dragged element; if it
differs from `currentDropTarget`, a drag-leave is dispatched to the old target
(if any, and a leave handler exists), `currentDropTarget` is updated, and a
synthetic drag-over carrying the coordinates is dispatched to the new target
(if non-null and an over handler exists); if it is unchanged, nothing
further happens. -/
def unifiedDragOver (dom : Dom) (h : Handlers) (ev : OverEvent)
    (disp : Nat → String) (s : DragState) : StepResult :=
  match ev with
  | .dragoverEv t =>
      if h.hasDragOver then ⟨disp, s, [Dispatch.dragOverNativeD t], false⟩
      else ⟨disp, s, [], false⟩
  | .touchmoveEv x y =>
      if s.isDragging then
        let res := getElementFromPoint dom disp x y s.draggedElement
        let elementBelow := res.2
        if elementBelow ≠ s.currentDropTarget then
          let leaveTrace : List Dispatch :=
            match s.currentDropTarget with
            | some old => if h.hasDragLeave then [Dispatch.dragLeaveD old] else []
            | none => []
          let overTrace : List Dispatch :=
            match elementBelow with
            | some nt => if h.hasDragOver then [Dispatch.dragOverD nt x y] else []
            | none => []
          ⟨res.1, { s with currentDropTarget := elementBelow }, leaveTrace ++ overTrace, false⟩
        else ⟨res.1, s, [], false⟩
      else ⟨disp, s, [], false⟩

/-- The dragged element's `dataset.tileId` ( `draggedElement ?
draggedElement.dataset.tileId : null` ). -/
def draggedTileId (dom : Dom) (s : DragState) : Option String :=
  match s.draggedElement with
  | some d => (dom.elem d).tileId
  | none => none

/-- The `dataTransfer.getData` closure of the synthetic drop event built by
`touchEndHandler`: `dragData[type] || (draggedElement ?
draggedElement.dataset.tileId : null)` — the stored value if truthy
(defined and nonempty), else the dragged element's tile id. -/
def dropGetData (payload : List (String × String)) (draggedId : Option String)
    (ty : String) : Option String :=
  match jsGet payload ty with
  | some s => if s != "" then some s else draggedId
  | none => draggedId

/-- `touchEndHandler` (registered for both touchend and touchcancel): no-op
unless a session is active; otherwise resolve the drop target excluding the
dragged element, dispatch a synthetic drop to it if it exists and a drop
handler exists, then dispatch a synthetic drag-end if a drag-end handler
exists, then reset the session.  If a dispatched handler throws, execution of
the body stops there and the session is NOT reset. -/
def touchEndHandler (dom : Dom) (h : Handlers) (x y : Int)
    (disp : Nat → String) (s : DragState) : StepResult :=
  if !s.isDragging then ⟨disp, s, [], false⟩
  else
    let res := getElementFromPoint dom disp x y s.draggedElement
    let dropTrace : List Dispatch :=
      match res.2 with
      | some dt =>
          if h.hasDrop then [Dispatch.dropD dt x y s.dragData (draggedTileId dom s)]
          else []
      | none => []
    if (res.2.isSome && h.hasDrop) && h.dropThrows then ⟨res.1, s, dropTrace, true⟩
    else
      let endTrace : List Dispatch :=
        if h.hasDragEnd then [Dispatch.dragEndD s.draggedElement] else []
      if h.hasDragEnd && h.dragEndThrows then ⟨res.1, s, dropTrace ++ endTrace, true⟩
      else ⟨res.1, emptyState, dropTrace ++ endTrace, false⟩

/-- `mouseDropHandler`: prevent default and forward the native drop event to
the drop handler if one exists — with no check of `isDragging` and no state
change. -/
def mouseDropHandler (h : Handlers) (target : Nat)
    (disp : Nat → String) (s : DragState) : StepResult :=
  if h.hasDrop then ⟨disp, s, [Dispatch.dropNativeD target], h.dropThrows⟩
  else ⟨disp, s, [], false⟩

/-- `mouseDragEndHandler`: forward the native dragend event to the drag-end
handler if one exists, then reset `isDragging`, `draggedElement` and
`currentDropTarget` — but NOT `dragData`.  If the handler throws, the resets
do not run. -/
def mouseDragEndHandler (h : Handlers) (target : Nat)
    (disp : Nat → String) (s : DragState) : StepResult :=
  if h.hasDragEnd && h.dragEndThrows then ⟨disp, s, [Dispatch.dragEndNativeD target], true⟩
  else
    let tr : List Dispatch := if h.hasDragEnd then [Dispatch.dragEndNativeD target] else []
    ⟨disp,
     { isDragging := false, draggedElement := none, currentDropTarget := none,
       dragData := s.dragData }, tr, false⟩

/-- `touchStartHandler`: run `unifiedDragStart` only when the native touch
target is, or is contained in, an element matching
`.mahjong-tile, [data-drag-enabled="true"]`. -/
def touchStartHandler (dom : Dom) (h : Handlers) (nativeTarget : Nat) (x y : Int)
    (disp : Nat → String) (s : DragState) : StepResult :=
  let parentTile := closestSuchThat dom nativeTarget
    (fun i => (dom.elem i).classList.contains "mahjong-tile" ||
      (dom.elem i).dragEnabled == some "true")
  if parentTile.isSome then unifiedDragStart dom h (.touchstartEv x y) disp s
  else ⟨disp, s, [], false⟩

/-- A native event arriving at the document, as seen by the listeners
`setupDragAndDrop` registers.  Touch events carry the coordinates of their
first (respectively first changed) touch point. -/
inductive InputEvent where
  | dragstartE (target : Nat)
  | dragoverE (target : Nat)
  | dragleaveE (target : Nat)
  | dropE (target : Nat)
  | dragendE (target : Nat)
  | touchstartE (nativeTarget : Nat) (x y : Int)
  | touchmoveE (x y : Int)
  | touchendE (x y : Int)
  | touchcancelE (x y : Int)
deriving DecidableEq

/-- Dispatch one native event to the listener `setupDragAndDrop` registered
for it (the dragleave listener is the caller's own handler and is registered
only when one was supplied). -/
def step (dom : Dom) (h : Handlers) (disp : Nat → String) (s : DragState) :
    InputEvent → StepResult
  | .dragstartE t => unifiedDragStart dom h (.dragstartEv t) disp s
  | .dragoverE t => unifiedDragOver dom h (.dragoverEv t) disp s
  | .dragleaveE t =>
      if h.hasDragLeave then ⟨disp, s, [Dispatch.dragLeaveNativeD t], false⟩
      else ⟨disp, s, [], false⟩
  | .dropE t => mouseDropHandler h t disp s
  | .dragendE t => mouseDragEndHandler h t disp s
  | .touchstartE n x y => touchStartHandler dom h n x y disp s
  | .touchmoveE x y => unifiedDragOver dom h (.touchmoveEv x y) disp s
  | .touchendE x y => touchEndHandler dom h x y disp s
  | .touchcancelE x y => touchEndHandler dom h x y disp s

/-- Run a sequence of native events, accumulating the dispatch trace. -/
def runT (dom : Dom) (h : Handlers) (disp : Nat → String) (s : DragState) :
    List InputEvent → ((Nat → String) × DragState) × List Dispatch
  | [] => ((disp, s), [])
  | ev :: evs =>
      let r := step dom h disp s ev
      let rest := runT dom h r.disp r.state evs
      (rest.1, r.trace ++ rest.2)

/-- Run a sequence of native events, keeping only the display map and state. -/
def run (dom : Dom) (h : Handlers) (disp : Nat → String) (s : DragState)
    (evs : List InputEvent) : (Nat → String) × DragState :=
  (runT dom h disp s evs).1

/-- The part of the spec's session invariant that the code maintains:
an inactive session holds no dragged element and no drop target, and an
active session always has a dragged element. -/
def SessionInv (s : DragState) : Prop :=
  (s.isDragging = false → s.draggedElement = none ∧ s.currentDropTarget = none) ∧
  (s.isDragging = true → s.draggedElement ≠ none)

/-- The browser guarantee `getElementFromPoint` relies on: an element whose
inline display is `"none"` is not rendered, so the hit test never returns it. -/
def noHitHidden (dom : Dom) : Prop :=
  ∀ (d : Nat → String) (x y : Int) (e : Nat), dom.hitTest d x y = some e → d e ≠ "none"

/-! ## Listener registration model (`setupDragAndDrop` / `removeDragAndDrop`)

`addEventListener` identifies a registration by (event type, listener
function, capture flag); all registrations here use the same capture flag.
Each `setupDragAndDrop` call creates fresh listener closures, modelled by a
`closureTok` carrying the call's instance number (allocated from a counter)
and the closure's name; the caller's own dragleave handler, which may be the
same function across calls, is a `callerTok` carrying the function's
identity.  `addEventListener` ignores a duplicate (type, listener) pair;
`removeEventListener` removes the matching registration. -/

/-- Identity of a registered listener function. -/
inductive Tok where
  | closureTok (instanceId : Nat) (name : String)
  | callerTok (fnId : Nat)
deriving DecidableEq

/-- `document.addEventListener`: no-op on a duplicate (type, listener) pair. -/
def addEventListener (l : List (String × Tok)) (ty : String) (tok : Tok) :
    List (String × Tok) :=
  if (ty, tok) ∈ l then l else l ++ [(ty, tok)]

/-- `document.removeEventListener`: remove the matching registration. -/
def removeEventListener (l : List (String × Tok)) (ty : String) (tok : Tok) :
    List (String × Tok) :=
  l.erase (ty, tok)

/-- The (type, listener) pairs one `setupDragAndDrop` call registers, in
program order.  `unifiedDragOver` is registered for both dragover and
touchmove, `touchEndHandler` for both touchend and touchcancel; the dragleave
listener is the caller's own function and only present when supplied. -/
def installedPairs (id : Nat) (hasLeave : Bool) (leaveTok : Nat) :
    List (String × Tok) :=
  [("dragstart", Tok.closureTok id "unifiedDragStart"),
   ("dragover", Tok.closureTok id "unifiedDragOver")] ++
  (if hasLeave then [("dragleave", Tok.callerTok leaveTok)] else []) ++
  [("drop", Tok.closureTok id "mouseDropHandler"),
   ("dragend", Tok.closureTok id "mouseDragEndHandler"),
   ("touchstart", Tok.closureTok id "touchStartHandler"),
   ("touchmove", Tok.closureTok id "unifiedDragOver"),
   ("touchend", Tok.closureTok id "touchEndHandler"),
   ("touchcancel", Tok.closureTok id "touchEndHandler")]

/-- The process-wide registration state: the document's listener list, the
`MahjongUtils._dragHandlers` record (instance id, whether a dragleave handler
was supplied, and its function identity), and the fresh-closure counter. -/
structure RegState where
  listeners : List (String × Tok)
  dragHandlers : Option (Nat × Bool × Nat)
  nextId : Nat
deriving DecidableEq

/-- `setupDragAndDrop` (registration effect): unconditionally add a fresh set
of listeners and overwrite `_dragHandlers` — there is no guard against a
prior registration. -/
def setupDragAndDrop (st : RegState) (hasLeave : Bool) (leaveTok : Nat) : RegState :=
  let id := st.nextId
  { listeners := (installedPairs id hasLeave leaveTok).foldl
      (fun l p => addEventListener l p.1 p.2) st.listeners,
    dragHandlers := some (id, hasLeave, leaveTok),
    nextId := id + 1 }

/-- `removeDragAndDrop`: if `_dragHandlers` exists, remove exactly the
listeners it records (in the same order the source removes them) and delete
`_dragHandlers`; otherwise do nothing. -/
def removeDragAndDrop (st : RegState) : RegState :=
  match st.dragHandlers with
  | none => st
  | some (id, hasLeave, leaveTok) =>
      { listeners := (installedPairs id hasLeave leaveTok).foldl
          (fun l p => removeEventListener l p.1 p.2) st.listeners,
        dragHandlers := none,
        nextId := st.nextId }

/-- Whether a dispatch is an invocation of the caller's drag-over handler
(synthetic or forwarded native). -/
def isOverDispatch : Dispatch → Bool
  | .dragOverD _ _ _ => true
  | .dragOverNativeD _ => true
  | _ => false

/-- Number of drag-over handler invocations in a trace. -/
def countOver (tr : List Dispatch) : Nat :=
  tr.countP isOverDispatch

/-! ## Concrete test fixtures -/

/-- A draggable tile as `createTile "0-3" _ true` builds it. -/
def elemTile : ElemInfo :=
  { tagName := "DIV", draggable := true, classList := ["mahjong-tile"],
    tileId := some "0-3", dragEnabled := none }

/-- A plain drop-zone element. -/
def elemZone : ElemInfo :=
  { tagName := "DIV", draggable := false, classList := ["drop-zone"],
    tileId := none, dragEnabled := none }

/-- A button that also carries a tile id. -/
def elemButton : ElemInfo :=
  { tagName := "BUTTON", draggable := false, classList := [],
    tileId := some "0-3", dragEnabled := none }

/-- A div carrying only the tile-identifier attribute, with the empty string
as its value (`data-tile-id=""`), no draggable flag and no tile class. -/
def elemBareTile : ElemInfo :=
  { tagName := "DIV", draggable := false, classList := [],
    tileId := some "", dragEnabled := none }

/-- A small concrete DOM: element 0 is a draggable tile sitting at x = 0,
element 1 is a drop zone everywhere else, element 3 is a button carrying a
tile id, element 4 carries only an empty tile-identifier attribute.  The hit
test honours the display map (a hidden element is never hit). -/
def testDom : Dom :=
  { elem := fun i =>
      if i = 0 then elemTile else if i = 3 then elemButton else
        if i = 4 then elemBareTile else elemZone,
    parentChain := fun _ => [],
    hitTest := fun d x _ =>
      if x = 0 then (if d 0 = "none" then none else some 0)
      else (if d 1 = "none" then none else some 1) }

/-- All elements initially visible (empty inline display). -/
def disp0 : Nat → String := fun _ => ""

/-- A session in which element 0 is being dragged. -/
def sActive : DragState :=
  { isDragging := true, draggedElement := some 0, currentDropTarget := none,
    dragData := [] }

/-- A full handler set whose drag-start handler stores one payload entry;
no handler throws. -/
def hFull : Handlers :=
  { hasDragStart := true, dragStartSets := [("text/plain", "tile-0")],
    hasDragOver := true, hasDragLeave := true, hasDrop := true,
    dropThrows := false, hasDragEnd := true, dragEndThrows := false }

/-- A handler set whose drop handler throws. -/
def hThrowDrop : Handlers :=
  { hasDragStart := false, dragStartSets := [], hasDragOver := false,
    hasDragLeave := false, hasDrop := true, dropThrows := true,
    hasDragEnd := true, dragEndThrows := false }

/-- A full handler set whose drag-start handler stores the empty string
under "text/plain"; no handler throws. -/
def hEmptySet : Handlers :=
  { hasDragStart := true, dragStartSets := [("text/plain", "")],
    hasDragOver := true, hasDragLeave := true, hasDrop := true,
    dropThrows := false, hasDragEnd := true, dragEndThrows := false }

/-- The registration state before any setup call. -/
def reg0 : RegState := { listeners := [], dragHandlers := none, nextId := 0 }

/-! ## Helper lemmas -/

/-- `getElementFromPoint` always restores the display map it was given. -/
lemma gefp_restores (dom : Dom) (disp : Nat → String) (x y : Int) (ex : Option Nat) :
    (getElementFromPoint dom disp x y ex).1 = disp := by
  cases ex with
  | none => rfl
  | some e =>
      funext i
      simp only [getElementFromPoint]
      by_cases h : i = e <;> simp [h]

/-- If the hit test never returns a hidden element, resolution with an
exclude element never returns the exclude element. -/
lemma gefp_ne_exclude (dom : Dom) (disp : Nat → String) (x y : Int) (e : Nat)
    (hnh : noHitHidden dom) :
    (getElementFromPoint dom disp x y (some e)).2 ≠ some e := by
  intro hc
  simp only [getElementFromPoint] at hc
  exact hnh (fun i => if i = e then "none" else disp i) x y e hc (by simp)

/-- `testDom`'s hit test never returns a hidden element. -/
lemma testDom_noHitHidden : noHitHidden testDom := by
  intro d x y e h hd
  simp only [testDom] at h
  by_cases hx : x = 0 <;> simp only [hx, if_true, if_false] at h
  · by_cases h0 : d 0 = "none" <;> simp [h0] at h
    cases h
    exact h0 hd
  · by_cases h1 : d 1 = "none" <;> simp [h1] at h
    cases h
    exact h1 hd

/-- `unifiedDragStart` preserves the session invariant. -/
lemma unifiedDragStart_inv (dom : Dom) (h : Handlers) (ev : StartEvent)
    (disp : Nat → String) (s : DragState) (hs : SessionInv s) :
    SessionInv (unifiedDragStart dom h ev disp s).state := by
  simp only [unifiedDragStart]
  split
  · exact hs
  · split
    · exact hs
    · split <;> exact ⟨by simp, by simp⟩

/-- `unifiedDragOver` preserves the session invariant. -/
lemma unifiedDragOver_inv (dom : Dom) (h : Handlers) (ev : OverEvent)
    (disp : Nat → String) (s : DragState) (hs : SessionInv s) :
    SessionInv (unifiedDragOver dom h ev disp s).state := by
  cases ev with
  | dragoverEv t =>
      simp only [unifiedDragOver]
      split <;> exact hs
  | touchmoveEv x y =>
      simp only [unifiedDragOver]
      by_cases hd : s.isDragging <;> simp only [hd, if_true, if_false]
      · split
        · refine ⟨fun hfalse => ?_, fun _ => hs.2 hd⟩
          simp [hd] at hfalse
        · exact hs
      · exact hs

/-- `touchEndHandler` preserves the session invariant. -/
lemma touchEndHandler_inv (dom : Dom) (h : Handlers) (x y : Int)
    (disp : Nat → String) (s : DragState) (hs : SessionInv s) :
    SessionInv (touchEndHandler dom h x y disp s).state := by
  simp only [touchEndHandler]
  split
  · exact hs
  · split
    · exact hs
    · split
      · exact hs
      · exact ⟨by simp [emptyState], by simp [emptyState]⟩

/-- `mouseDropHandler` preserves the session invariant. -/
lemma mouseDropHandler_inv (h : Handlers) (t : Nat)
    (disp : Nat → String) (s : DragState) (hs : SessionInv s) :
    SessionInv (mouseDropHandler h t disp s).state := by
  simp only [mouseDropHandler]
  split <;> exact hs

/-- `mouseDragEndHandler` preserves the session invariant. -/
lemma mouseDragEndHandler_inv (h : Handlers) (t : Nat)
    (disp : Nat → String) (s : DragState) (hs : SessionInv s) :
    SessionInv (mouseDragEndHandler h t disp s).state := by
  simp only [mouseDragEndHandler]
  split
  · exact hs
  · exact ⟨fun _ => ⟨rfl, rfl⟩, by simp⟩

/-- `touchStartHandler` preserves the session invariant. -/
lemma touchStartHandler_inv (dom : Dom) (h : Handlers) (n : Nat) (x y : Int)
    (disp : Nat → String) (s : DragState) (hs : SessionInv s) :
    SessionInv (touchStartHandler dom h n x y disp s).state := by
  simp only [touchStartHandler]
  split
  · exact unifiedDragStart_inv dom h _ disp s hs
  · exact hs

/-- Every native event listener preserves the session invariant. -/
lemma step_inv (dom : Dom) (h : Handlers) (disp : Nat → String) (s : DragState)
    (ev : InputEvent) (hs : SessionInv s) :
    SessionInv (step dom h disp s ev).state := by
  cases ev with
  | dragstartE t => exact unifiedDragStart_inv dom h _ disp s hs
  | dragoverE t => exact unifiedDragOver_inv dom h _ disp s hs
  | dragleaveE t =>
      simp only [step]
      split <;> exact hs
  | dropE t => exact mouseDropHandler_inv h t disp s hs
  | dragendE t => exact mouseDragEndHandler_inv h t disp s hs
  | touchstartE n x y => exact touchStartHandler_inv dom h n x y disp s hs
  | touchmoveE x y => exact unifiedDragOver_inv dom h _ disp s hs
  | touchendE x y => exact touchEndHandler_inv dom h x y disp s hs
  | touchcancelE x y => exact touchEndHandler_inv dom h x y disp s hs

/-- Running any event sequence preserves the session invariant. -/
lemma runT_inv (dom : Dom) (h : Handlers) (evs : List InputEvent) :
    ∀ (disp : Nat → String) (s : DragState),
      SessionInv s → SessionInv (runT dom h disp s evs).1.2 := by
  induction evs with
  | nil => intro disp s hs; simpa [runT] using hs
  | cons ev evs ih =>
      intro disp s hs
      have h1 := step_inv dom h disp s ev hs
      simpa [runT] using ih _ _ h1

/-- The initial session state satisfies the invariant. -/
lemma emptyState_inv : SessionInv emptyState :=
  ⟨fun _ => ⟨rfl, rfl⟩, by simp [emptyState]⟩

/-- A touchmove whose resolved element equals the current drop target is a
complete no-op: same display map, same state, no dispatch. -/
lemma touchmove_same (dom : Dom) (h : Handlers) (x y : Int) (disp : Nat → String)
    (s : DragState) (E : Nat) (hAct : s.isDragging = true)
    (hcur : s.currentDropTarget = some E)
    (hres : (getElementFromPoint dom disp x y s.draggedElement).2 = some E) :
    step dom h disp s (.touchmoveE x y) = ⟨disp, s, [], false⟩ := by
  simp only [step, unifiedDragOver, hAct, if_true, hres, hcur]
  simp [gefp_restores dom disp x y s.draggedElement]

/-- Touchmoves that keep resolving to the current drop target leave
everything unchanged and dispatch nothing. -/
lemma touchmoves_stable (dom : Dom) (h : Handlers) (E : Nat)
    (moves : List (Int × Int)) :
    ∀ (disp : Nat → String) (s : DragState),
      s.isDragging = true → s.currentDropTarget = some E →
      (∀ c ∈ moves, (getElementFromPoint dom disp c.1 c.2 s.draggedElement).2 = some E) →
      runT dom h disp s (moves.map fun c => InputEvent.touchmoveE c.1 c.2) =
        ((disp, s), []) := by
  induction moves with
  | nil => intro disp s _ _ _; simp [runT]
  | cons c cs ih =>
      intro disp s hAct hcur hres
      have hstep := touchmove_same dom h c.1 c.2 disp s E hAct hcur (hres c (by simp))
      have hrest := ih disp s hAct hcur (fun c2 hc2 => hres c2 (by simp [hc2]))
      simp only [List.map_cons, runT, hstep, hrest]
      simp

/-- A touchmove whose resolved element differs from the current drop target
restores the display map, moves the drop target to the resolved element, and
dispatches the over handler at most once. -/
lemma touchmove_transition (dom : Dom) (h : Handlers) (x y : Int)
    (disp : Nat → String) (s : DragState) (E : Nat) (hAct : s.isDragging = true)
    (hne : s.currentDropTarget ≠ some E)
    (hres : (getElementFromPoint dom disp x y s.draggedElement).2 = some E) :
    (step dom h disp s (.touchmoveE x y)).disp = disp ∧
    (step dom h disp s (.touchmoveE x y)).state = { s with currentDropTarget := some E } ∧
    countOver (step dom h disp s (.touchmoveE x y)).trace ≤ 1 ∧
    (step dom h disp s (.touchmoveE x y)).threw = false := by
  have hne2 : some E ≠ s.currentDropTarget := fun hh => hne hh.symm
  simp only [step, unifiedDragOver, hAct, if_true, hres, ne_eq, hne2,
    not_false_iff, if_true]
  refine ⟨gefp_restores dom disp x y s.draggedElement, by trivial, ?_, by trivial⟩
  cases hcur2 : s.currentDropTarget with
  | none =>
      cases hover : h.hasDragOver <;>
        simp [countOver, isOverDispatch, hover]
  | some old =>
      cases hover : h.hasDragOver <;> cases hleave : h.hasDragLeave <;>
        simp [countOver, isOverDispatch, hover, hleave, List.countP_cons]

/-- Adding a list of pairwise-distinct registrations, none already present,
appends them all (the `addEventListener` dedupe never fires). -/
lemma foldl_add_fresh :
    ∀ (ps l : List (String × Tok)), ps.Nodup → (∀ p ∈ ps, p ∉ l) →
      ps.foldl (fun l p => addEventListener l p.1 p.2) l = l ++ ps := by
  intro ps
  induction ps with
  | nil => intro l _ _; simp
  | cons a ps ih =>
      intro l hnd hf
      have ha : a ∉ l := hf a (by simp)
      have h1 : addEventListener l a.1 a.2 = l ++ [a] := by
        simp [addEventListener, ha]
      have hf2 : ∀ p ∈ ps, p ∉ l ++ [a] := by
        intro p hp
        simp only [List.mem_append, List.mem_singleton]
        rintro (hc | hc)
        · exact hf p (by simp [hp]) hc
        · exact (List.nodup_cons.mp hnd).1 (hc ▸ hp)
      have := ih (l ++ [a]) (List.nodup_cons.mp hnd).2 hf2
      simp only [List.foldl_cons, h1, this, List.append_assoc, List.singleton_append]

/-- Removing a list of registrations, none present in the prefix, from the
prefix followed by exactly those registrations recovers the prefix. -/
lemma foldl_erase_append :
    ∀ (ps l : List (String × Tok)), (∀ p ∈ ps, p ∉ l) →
      ps.foldl (fun l p => removeEventListener l p.1 p.2) (l ++ ps) = l := by
  intro ps
  induction ps with
  | nil => intro l _; simp
  | cons a ps ih =>
      intro l hf
      have h1 : removeEventListener (l ++ a :: ps) a.1 a.2 = l ++ ps := by
        simp only [removeEventListener]
        rw [List.erase_append_right _ (hf a (by simp))]
        simp
      simp only [List.foldl_cons, h1]
      exact ih l (fun p hp => hf p (by simp [hp]))

/-- The registrations one setup call installs are pairwise distinct
(their event types already are). -/
lemma installedPairs_nodup (id : Nat) (hasLeave : Bool) (leaveTok : Nat) :
    (installedPairs id hasLeave leaveTok).Nodup := by
  refine List.Nodup.of_map Prod.fst ?_
  cases hasLeave <;> simp [installedPairs]

/-- If `touchEndHandler` ran on an active session and no handler threw, the
session was reset. -/
lemma touchEnd_clears (dom : Dom) (h : Handlers) (x y : Int)
    (disp : Nat → String) (s : DragState) (hAct : s.isDragging = true)
    (hOk : (touchEndHandler dom h x y disp s).threw = false) :
    (touchEndHandler dom h x y disp s).state = emptyState := by
  by_cases h1 : (((getElementFromPoint dom disp x y s.draggedElement).2.isSome &&
      h.hasDrop) && h.dropThrows) = true
  · simp [touchEndHandler, hAct, h1] at hOk
  · by_cases h2 : (h.hasDragEnd && h.dragEndThrows) = true
    · simp [touchEndHandler, hAct, h1, h2] at hOk
    · simp [touchEndHandler, hAct, h1, h2]

/-- If neither the drop nor the drag-end handler throws, `touchEndHandler`
does not throw. -/
lemma touchEnd_nothrow (dom : Dom) (h : Handlers) (x y : Int)
    (disp : Nat → String) (s : DragState)
    (h1 : h.dropThrows = false) (h2 : h.dragEndThrows = false) :
    (touchEndHandler dom h x y disp s).threw = false := by
  by_cases hAct : s.isDragging = true
  · simp [touchEndHandler, hAct, h1, h2]
  · simp [touchEndHandler, Bool.of_not_eq_true hAct]

/-- If the drag-end handler did not throw, `mouseDragEndHandler` resets
everything except the payload, which it keeps. -/
lemma mouseDragEnd_resets (h : Handlers) (t : Nat)
    (disp : Nat → String) (s : DragState)
    (hOk : (mouseDragEndHandler h t disp s).threw = false) :
    (mouseDragEndHandler h t disp s).state =
      { isDragging := false, draggedElement := none, currentDropTarget := none,
        dragData := s.dragData } := by
  by_cases h2 : (h.hasDragEnd && h.dragEndThrows) = true
  · simp [mouseDragEndHandler, h2] at hOk
  · simp [mouseDragEndHandler, h2]

/-! ## Claims -/

/-- Claim C1, counterexample.  The claim says that after any
drop/drag-end/cancel event the session state equals the initial empty state
and that `active == false` implies `payload == {}`.  On the native pointer
path this is false: a mouse drag whose start handler stores a payload entry,
followed by a native dragend, ends with `isDragging = false` but a non-empty
`dragData` — `mouseDragEndHandler` never clears `dragData`, so the pointer
path and the touch path do not reach the same terminal state. -/
theorem C1_counterexample :
    (run testDom hFull disp0 emptyState
        [InputEvent.dragstartE 0, InputEvent.dragendE 0]).2.isDragging = false ∧
    (run testDom hFull disp0 emptyState
        [InputEvent.dragstartE 0, InputEvent.dragendE 0]).2.dragData =
      [("text/plain", "tile-0")] ∧
    (run testDom hFull disp0 emptyState
        [InputEvent.dragstartE 0, InputEvent.dragendE 0]).2 ≠ emptyState := by
  decide

/-- Claim C1, amended.  After a touch-end/touch-cancel on an active session
(with no handler throwing) the session is exactly the initial empty state;
after a native dragend (handler not throwing) `active`, `draggedElement` and
`dropTarget` are reset but the payload is left unchanged; a native drop
changes no session state at all; and in every reachable state
`active == false` implies `draggedElement == none` (but not
`payload == {}`). -/
theorem C1_amended (dom : Dom) (h : Handlers) (disp : Nat → String)
    (s : DragState) (x y : Int) (t : Nat) (evs : List InputEvent)
    (hAct : s.isDragging = true)
    (hTouchOk : (touchEndHandler dom h x y disp s).threw = false)
    (hEndOk : (mouseDragEndHandler h t disp s).threw = false) :
    (touchEndHandler dom h x y disp s).state = emptyState ∧
    (mouseDragEndHandler h t disp s).state =
      { isDragging := false, draggedElement := none, currentDropTarget := none,
        dragData := s.dragData } ∧
    (mouseDropHandler h t disp s).state = s ∧
    ((run dom h disp emptyState evs).2.isDragging = false →
      (run dom h disp emptyState evs).2.draggedElement = none) := by
  refine ⟨touchEnd_clears dom h x y disp s hAct hTouchOk,
    mouseDragEnd_resets h t disp s hEndOk, ?_, ?_⟩
  · simp only [mouseDropHandler]
    split <;> rfl
  · intro hIn
    have hinv := runT_inv dom h evs disp emptyState emptyState_inv
    have := hinv.1 (by simpa [run] using hIn)
    simpa [run] using this.1

/-- Witness for C1_amended at a concrete active session. -/
theorem C1_amended_witness :
    (touchEndHandler testDom hFull 5 5 disp0 sActive).state = emptyState ∧
    (mouseDragEndHandler hFull 0 disp0 sActive).state =
      { isDragging := false, draggedElement := none, currentDropTarget := none,
        dragData := sActive.dragData } ∧
    (mouseDropHandler hFull 0 disp0 sActive).state = sActive ∧
    ((run testDom hFull disp0 emptyState []).2.isDragging = false →
      (run testDom hFull disp0 emptyState []).2.draggedElement = none) :=
  C1_amended testDom hFull disp0 sActive 5 5 0 [] rfl (by decide) (by decide)

/-- Claim C2, counterexample.  The claim says a touch-end on an active
session clears the session even if the drop handler throws.  It does not:
`touchEndHandler` has no guaranteed-cleanup construct, so when the drop
handler throws the state-reset step never runs and the session stays
active. -/
theorem C2_counterexample :
    sActive ≠ emptyState ∧
    (touchEndHandler testDom hThrowDrop 5 5 disp0 sActive).threw = true ∧
    (touchEndHandler testDom hThrowDrop 5 5 disp0 sActive).state = sActive := by
  decide

/-- Claim C2, amended.  On a touch-end/touch-cancel processed while a session
is active, if neither the drop handler nor the drag-end handler throws, the
clearing step runs (regardless of whether the dispatch steps ran at all) and
the session is reset to the empty state; if a dispatched handler throws, the
session is not cleared. -/
theorem C2_amended (dom : Dom) (h : Handlers) (x y : Int)
    (disp : Nat → String) (s : DragState) (hAct : s.isDragging = true)
    (h1 : h.dropThrows = false) (h2 : h.dragEndThrows = false) :
    (touchEndHandler dom h x y disp s).threw = false ∧
    (touchEndHandler dom h x y disp s).state = emptyState := by
  have hOk := touchEnd_nothrow dom h x y disp s h1 h2
  exact ⟨hOk, touchEnd_clears dom h x y disp s hAct hOk⟩

/-- Witness for C2_amended at a concrete active session. -/
theorem C2_amended_witness :
    (touchEndHandler testDom hFull 5 5 disp0 sActive).threw = false ∧
    (touchEndHandler testDom hFull 5 5 disp0 sActive).state = emptyState :=
  C2_amended testDom hFull 5 5 disp0 sActive rfl rfl rfl

/-- Claim C3, confirmed.  For any sequence of touch-move events during an
active session that all resolve to the same element `E`, the drag-over
handler is invoked at most once across the whole sequence; and if the
session's current drop target is already `E`, the sequence dispatches
nothing at all and leaves the session unchanged. -/
theorem C3_confirmed (dom : Dom) (h : Handlers) (disp : Nat → String)
    (s : DragState) (E : Nat) (moves : List (Int × Int))
    (hAct : s.isDragging = true)
    (hres : ∀ c ∈ moves,
      (getElementFromPoint dom disp c.1 c.2 s.draggedElement).2 = some E) :
    countOver (runT dom h disp s
        (moves.map fun c => InputEvent.touchmoveE c.1 c.2)).2 ≤ 1 ∧
    (s.currentDropTarget = some E →
      (runT dom h disp s (moves.map fun c => InputEvent.touchmoveE c.1 c.2)).2 = [] ∧
      (runT dom h disp s (moves.map fun c => InputEvent.touchmoveE c.1 c.2)).1.2 = s) := by
  constructor
  · cases moves with
    | nil => simp [runT, countOver]
    | cons c cs =>
        by_cases hcur : s.currentDropTarget = some E
        · rw [touchmoves_stable dom h E (c :: cs) disp s hAct hcur hres]
          simp [countOver]
        · have ht := touchmove_transition dom h c.1 c.2 disp s E hAct hcur
            (hres c (by simp))
          have hstable := touchmoves_stable dom h E cs disp
            { s with currentDropTarget := some E } hAct rfl
            (fun c2 hc2 => hres c2 (by simp [hc2]))
          simp only [List.map_cons, runT]
          rw [ht.1, ht.2.1, hstable]
          simpa using ht.2.2.1
  · intro hcur
    rw [touchmoves_stable dom h E moves disp s hAct hcur hres]
    exact ⟨rfl, rfl⟩

/-- Witness for C3_confirmed: two moves over the same drop zone dispatch the
over handler at most once. -/
theorem C3_confirmed_witness :
    countOver (runT testDom hFull disp0 sActive
        ([((5 : Int), (5 : Int)), ((6 : Int), (6 : Int))].map
          fun c => InputEvent.touchmoveE c.1 c.2)).2 ≤ 1 ∧
    (sActive.currentDropTarget = some 1 →
      (runT testDom hFull disp0 sActive
        ([((5 : Int), (5 : Int)), ((6 : Int), (6 : Int))].map
          fun c => InputEvent.touchmoveE c.1 c.2)).2 = [] ∧
      (runT testDom hFull disp0 sActive
        ([((5 : Int), (5 : Int)), ((6 : Int), (6 : Int))].map
          fun c => InputEvent.touchmoveE c.1 c.2)).1.2 = sActive) :=
  C3_confirmed testDom hFull disp0 sActive 1 [(5, 5), (6, 6)] rfl (by decide)

/-- Claim C4, confirmed.  Assuming the browser never hit-tests a
`display:none` element, then during an active session (dragged element `d`):
resolution at any touchmove/touchend coordinate never returns `d`, the drop
target recorded after a touchmove is never `d`, and no drag-over or drop
dispatch of those handlers targets `d`. -/
theorem C4_confirmed (dom : Dom) (h : Handlers) (disp : Nat → String)
    (s : DragState) (x y : Int) (d : Nat)
    (hnh : noHitHidden dom) (hAct : s.isDragging = true)
    (hd : s.draggedElement = some d) :
    (getElementFromPoint dom disp x y s.draggedElement).2 ≠ some d ∧
    (unifiedDragOver dom h (.touchmoveEv x y) disp s).state.currentDropTarget ≠ some d ∧
    (∀ t cx cy, Dispatch.dragOverD t cx cy ∈
        (unifiedDragOver dom h (.touchmoveEv x y) disp s).trace → t ≠ d) ∧
    (∀ t cx cy pl ti, Dispatch.dropD t cx cy pl ti ∈
        (touchEndHandler dom h x y disp s).trace → t ≠ d) := by
  have hne : (getElementFromPoint dom disp x y s.draggedElement).2 ≠ some d := by
    rw [hd]
    exact gefp_ne_exclude dom disp x y d hnh
  refine ⟨hne, ?_, ?_, ?_⟩
  · by_cases hch : (getElementFromPoint dom disp x y s.draggedElement).2 =
        s.currentDropTarget
    · have hnch : ¬ ((getElementFromPoint dom disp x y s.draggedElement).2 ≠
          s.currentDropTarget) := by simpa using hch
      simp only [unifiedDragOver, hAct, if_true]
      rw [if_neg hnch]
      exact hch ▸ hne
    · simp only [unifiedDragOver, hAct, if_true]
      rw [if_pos hch]
      exact hne
  · intro t cx cy hmem
    by_cases hch : (getElementFromPoint dom disp x y s.draggedElement).2 =
        s.currentDropTarget
    · have hnch : ¬ ((getElementFromPoint dom disp x y s.draggedElement).2 ≠
          s.currentDropTarget) := by simpa using hch
      simp only [unifiedDragOver, hAct, if_true] at hmem
      rw [if_neg hnch] at hmem
      simp at hmem
    · simp only [unifiedDragOver, hAct, if_true] at hmem
      rw [if_pos hch] at hmem
      simp only [List.mem_append] at hmem
      rcases hmem with hmem | hmem
      · cases hcur : s.currentDropTarget <;> simp [hcur] at hmem
      · cases hr : (getElementFromPoint dom disp x y s.draggedElement).2 with
        | none => simp [hr] at hmem
        | some nt =>
            simp only [hr] at hmem
            cases hover : h.hasDragOver <;> simp [hover] at hmem
            intro hEq
            exact hne (hr.trans (by rw [← hmem.1, hEq]))
  · intro t cx cy pl ti hmem
    simp only [touchEndHandler, hAct, Bool.not_true, if_false] at hmem
    cases hr : (getElementFromPoint dom disp x y s.draggedElement).2 with
    | none =>
        simp only [hr] at hmem
        cases hde : h.hasDragEnd <;> cases hdet : h.dragEndThrows <;>
          simp [hde, hdet] at hmem
    | some dt =>
        simp only [hr] at hmem
        have hdt : dt ≠ d := fun hEq => hne (hr.trans (by rw [hEq]))
        cases hdrop : h.hasDrop <;> cases hthr : h.dropThrows <;>
          cases hde : h.hasDragEnd <;> cases hdet : h.dragEndThrows <;>
          simp [hdrop, hthr, hde, hdet] at hmem <;>
          exact hmem.1 ▸ hdt

/-- Witness for C4_confirmed on the concrete DOM (whose hit test honours
hiding) with element 0 being dragged. -/
theorem C4_confirmed_witness :
    (getElementFromPoint testDom disp0 5 5 sActive.draggedElement).2 ≠ some 0 ∧
    (unifiedDragOver testDom hFull (.touchmoveEv 5 5) disp0 sActive).state.currentDropTarget ≠
      some 0 ∧
    (∀ t cx cy, Dispatch.dragOverD t cx cy ∈
        (unifiedDragOver testDom hFull (.touchmoveEv 5 5) disp0 sActive).trace → t ≠ 0) ∧
    (∀ t cx cy pl ti, Dispatch.dropD t cx cy pl ti ∈
        (touchEndHandler testDom hFull 5 5 disp0 sActive).trace → t ≠ 0) :=
  C4_confirmed testDom hFull disp0 sActive 5 5 0 testDom_noHitHidden rfl rfl

/-- Claim C5, counterexample.  The claim says an element carrying only the
tile-identifier attribute (no draggable flag, no tile class) is an eligible
drag start target.  Element 4 carries the attribute with the empty string as
value (`data-tile-id=""`); `targetElement.dataset.tileId` is then `""`,
which is falsy, so the element is NOT eligible: no session is created and
the start handler is not invoked. -/
theorem C5_counterexample :
    (testDom.elem 4).tileId.isSome = true ∧
    (testDom.elem 4).draggable = false ∧
    (testDom.elem 4).classList.contains "mahjong-tile" = false ∧
    isNonDraggableInteractive testDom 4 = false ∧
    (unifiedDragStart testDom hFull (.dragstartEv 4) disp0 emptyState).state = emptyState ∧
    (unifiedDragStart testDom hFull (.dragstartEv 4) disp0 emptyState).trace = [] := by
  decide

/-- Claim C5, amended.  An element whose tile-identifier attribute holds a
nonempty value is an eligible drag start target (regardless of draggable
flag or tile class) provided it is not, and is not contained in, a
button/link/input: the session opens on it and the start handler (when
supplied) is invoked exactly once.  An element that is, or is contained in,
a button/link/input is never eligible: no session is created and no handler
is invoked.  An element whose tile-identifier value is the empty string
does not qualify through that attribute (JavaScript truthiness). -/
theorem C5_amended (dom : Dom) (h : Handlers) (disp : Nat → String)
    (s : DragState) (t u : Nat) (v : String)
    (htile : (dom.elem t).tileId = some v) (hv : v ≠ "")
    (hni : isNonDraggableInteractive dom t = false)
    (hui : isNonDraggableInteractive dom u = true) :
    ((unifiedDragStart dom h (.dragstartEv t) disp s).state.isDragging = true ∧
     (unifiedDragStart dom h (.dragstartEv t) disp s).state.draggedElement = some t ∧
     (h.hasDragStart = true →
       (unifiedDragStart dom h (.dragstartEv t) disp s).trace = [Dispatch.dragStartD t])) ∧
    ((unifiedDragStart dom h (.dragstartEv u) disp s).state = s ∧
     (unifiedDragStart dom h (.dragstartEv u) disp s).trace = []) := by
  have hdr : isDraggableElement dom t = true := by
    simp [isDraggableElement, htile, truthyStr, hv]
  constructor
  · simp only [unifiedDragStart, hdr, hni]
    split
    · simp_all
    · split <;> simp_all
  · simp only [unifiedDragStart, hui, Bool.or_true, if_true]
    exact ⟨by trivial, by trivial⟩

/-- Witness for C5_amended: the tile (element 0) is eligible, the button
carrying a tile id (element 3) is not. -/
theorem C5_amended_witness :
    ((unifiedDragStart testDom hFull (.dragstartEv 0) disp0 emptyState).state.isDragging = true ∧
     (unifiedDragStart testDom hFull (.dragstartEv 0) disp0 emptyState).state.draggedElement =
       some 0 ∧
     (hFull.hasDragStart = true →
       (unifiedDragStart testDom hFull (.dragstartEv 0) disp0 emptyState).trace =
         [Dispatch.dragStartD 0])) ∧
    ((unifiedDragStart testDom hFull (.dragstartEv 3) disp0 emptyState).state = emptyState ∧
     (unifiedDragStart testDom hFull (.dragstartEv 3) disp0 emptyState).trace = []) :=
  C5_amended testDom hFull disp0 emptyState 0 3 "0-3" rfl (by decide) (by decide) (by decide)

/-- Claim C6, counterexample.  The claim says every drop event is a no-op
when no session is active.  The native drop listener invokes the supplied
drop handler unconditionally — here with no active session. -/
theorem C6_counterexample :
    emptyState.isDragging = false ∧
    (mouseDropHandler hFull 1 disp0 emptyState).trace = [Dispatch.dropNativeD 1] := by
  decide

/-- Claim C6, amended.  Touch-end and touch-cancel with no active session
are complete no-ops (no handler invoked, no state change, no throw); the
native drop listener never changes session state, but it forwards the event
to the drop handler (when supplied) regardless of whether a session is
active. -/
theorem C6_amended (dom : Dom) (h : Handlers) (x y : Int) (t : Nat)
    (disp : Nat → String) (s : DragState) (hIn : s.isDragging = false) :
    (touchEndHandler dom h x y disp s).state = s ∧
    (touchEndHandler dom h x y disp s).trace = [] ∧
    (touchEndHandler dom h x y disp s).threw = false ∧
    (mouseDropHandler h t disp s).state = s := by
  have htE : touchEndHandler dom h x y disp s = ⟨disp, s, [], false⟩ := by
    simp [touchEndHandler, hIn]
  refine ⟨by rw [htE], by rw [htE], by rw [htE], ?_⟩
  simp only [mouseDropHandler]
  split <;> rfl

/-- Witness for C6_amended at the inactive initial state. -/
theorem C6_amended_witness :
    (touchEndHandler testDom hFull 5 5 disp0 emptyState).state = emptyState ∧
    (touchEndHandler testDom hFull 5 5 disp0 emptyState).trace = [] ∧
    (touchEndHandler testDom hFull 5 5 disp0 emptyState).threw = false ∧
    (mouseDropHandler hFull 1 disp0 emptyState).state = emptyState :=
  C6_amended testDom hFull 5 5 1 disp0 emptyState rfl

/-- Claim C7, counterexample.  The claim says a second setup call without an
intervening teardown is a no-op leaving the listener state equal to the
state after the first call alone.  `setupDragAndDrop` has no registration
guard: the second call registers a second set of listeners and overwrites
the stored record. -/
theorem C7_counterexample :
    (setupDragAndDrop (setupDragAndDrop reg0 true 7) true 7).listeners ≠
      (setupDragAndDrop reg0 true 7).listeners ∧
    setupDragAndDrop (setupDragAndDrop reg0 true 7) true 7 ≠
      setupDragAndDrop reg0 true 7 := by
  decide

/-- Claim C7, amended.  Calling setup a second time without an intervening
teardown is NOT a no-op: it registers a second, fresh set of closure
listeners (only the caller's own drag-leave function, being the identical
function, is not added twice) and overwrites the stored handler record with
the second set, so that a subsequent teardown removes only the second set of
closures (plus the shared drag-leave registration), leaving the first call's
closure listeners registered. -/
theorem C7_amended :
    (setupDragAndDrop (setupDragAndDrop reg0 true 7) true 7).listeners =
      (setupDragAndDrop reg0 true 7).listeners ++
        [("dragstart", Tok.closureTok 1 "unifiedDragStart"),
         ("dragover", Tok.closureTok 1 "unifiedDragOver"),
         ("drop", Tok.closureTok 1 "mouseDropHandler"),
         ("dragend", Tok.closureTok 1 "mouseDragEndHandler"),
         ("touchstart", Tok.closureTok 1 "touchStartHandler"),
         ("touchmove", Tok.closureTok 1 "unifiedDragOver"),
         ("touchend", Tok.closureTok 1 "touchEndHandler"),
         ("touchcancel", Tok.closureTok 1 "touchEndHandler")] ∧
    (setupDragAndDrop (setupDragAndDrop reg0 true 7) true 7).dragHandlers =
      some (1, true, 7) ∧
    (removeDragAndDrop (setupDragAndDrop (setupDragAndDrop reg0 true 7) true 7)).listeners =
      ((setupDragAndDrop reg0 true 7).listeners).erase ("dragleave", Tok.callerTok 7) := by
  decide

/-- Claim C8, counterexample.  The claim says the drop event's payload
`get(key)` returns the value stored in the session payload if one was set at
drag-start.  If the drag-start handler stored the empty string, `get`
returns the dragged element's tile id instead (JavaScript `||` treats the
stored `""` as falsy): here `""` was stored under "text/plain" at
drag-start, yet `get("text/plain")` yields `"0-3"`, not `""`. -/
theorem C8_counterexample :
    (runT testDom hEmptySet disp0 emptyState
        [InputEvent.touchstartE 0 0 0, InputEvent.touchendE 5 5]).2 =
      [Dispatch.dragStartD 0,
       Dispatch.dropD 1 5 5 [("text/plain", "")] (some "0-3"),
       Dispatch.dragEndD (some 0)] ∧
    jsGet [("text/plain", "")] "text/plain" = some "" ∧
    dropGetData [("text/plain", "")] (some "0-3") "text/plain" = some "0-3" ∧
    (some "0-3" : Option String) ≠ some "" := by
  decide

/-- Claim C8, amended.  On a touch-end drop dispatch with an active session,
the synthetic event carries the session payload and the dragged element's
tile id, and its payload `get(key)` returns the stored session-payload value
when that value is nonempty, and otherwise (no value stored, or the empty
string stored) falls back to the dragged element's tile-identifier
attribute. -/
theorem C8_amended (dom : Dom) (h : Handlers) (x y : Int)
    (disp : Nat → String) (s : DragState) (dt : Nat)
    (hAct : s.isDragging = true) (hdrop : h.hasDrop = true)
    (hres : (getElementFromPoint dom disp x y s.draggedElement).2 = some dt) :
    (∃ rest, (touchEndHandler dom h x y disp s).trace =
      Dispatch.dropD dt x y s.dragData (draggedTileId dom s) :: rest) ∧
    (∀ (pl : List (String × String)) (ti : Option String) (k v : String),
      jsGet pl k = some v → v ≠ "" → dropGetData pl ti k = some v) ∧
    (∀ (pl : List (String × String)) (ti : Option String) (k : String),
      jsGet pl k = none ∨ jsGet pl k = some "" → dropGetData pl ti k = ti) := by
  refine ⟨?_, ?_, ?_⟩
  · simp only [touchEndHandler, hAct, Bool.not_true, if_false, hres, hdrop]
    cases hthr : h.dropThrows <;>
      cases hde : h.hasDragEnd <;> cases hdet : h.dragEndThrows <;>
      simp [hthr, hde, hdet]
  · intro pl ti k v hk hv
    simp [dropGetData, hk, hv]
  · intro pl ti k hk
    rcases hk with hk | hk <;> simp [dropGetData, hk]

/-- Witness for C8_amended on the concrete touch drop over element 1. -/
theorem C8_amended_witness :
    (∃ rest, (touchEndHandler testDom hFull 5 5 disp0 sActive).trace =
      Dispatch.dropD 1 5 5 sActive.dragData (draggedTileId testDom sActive) :: rest) ∧
    (∀ (pl : List (String × String)) (ti : Option String) (k v : String),
      jsGet pl k = some v → v ≠ "" → dropGetData pl ti k = some v) ∧
    (∀ (pl : List (String × String)) (ti : Option String) (k : String),
      jsGet pl k = none ∨ jsGet pl k = some "" → dropGetData pl ti k = ti) :=
  C8_amended testDom hFull 5 5 disp0 sActive 1 rfl rfl (by decide)

/-- Claim C9, confirmed.  Teardown with nothing registered is an exact no-op
(so a second consecutive teardown after one setup/teardown pair produces no
change and no error), and after a teardown following a single setup whose
registrations were fresh, the listener list returns to exactly its pre-setup
value — in particular no listener installed by that setup remains
registered. -/
theorem C9_confirmed (st : RegState) (hasLeave : Bool) (leaveTok : Nat)
    (hfresh : ∀ p ∈ installedPairs st.nextId hasLeave leaveTok, p ∉ st.listeners) :
    (∀ st2 : RegState, st2.dragHandlers = none → removeDragAndDrop st2 = st2) ∧
    (removeDragAndDrop (setupDragAndDrop st hasLeave leaveTok)).listeners =
      st.listeners ∧
    (removeDragAndDrop (setupDragAndDrop st hasLeave leaveTok)).dragHandlers = none ∧
    removeDragAndDrop (removeDragAndDrop (setupDragAndDrop st hasLeave leaveTok)) =
      removeDragAndDrop (setupDragAndDrop st hasLeave leaveTok) := by
  have hno : ∀ st2 : RegState, st2.dragHandlers = none → removeDragAndDrop st2 = st2 := by
    intro st2 h2
    simp only [removeDragAndDrop, h2]
  have hrem : (removeDragAndDrop (setupDragAndDrop st hasLeave leaveTok)).listeners =
      st.listeners := by
    simp only [removeDragAndDrop, setupDragAndDrop]
    rw [foldl_add_fresh _ _ (installedPairs_nodup _ _ _) hfresh]
    exact foldl_erase_append _ _ hfresh
  have hdh : (removeDragAndDrop (setupDragAndDrop st hasLeave leaveTok)).dragHandlers =
      none := by
    simp only [removeDragAndDrop, setupDragAndDrop]
  exact ⟨hno, hrem, hdh, hno _ hdh⟩

/-- Witness for C9_confirmed at the empty registration state. -/
theorem C9_confirmed_witness :
    (∀ st2 : RegState, st2.dragHandlers = none → removeDragAndDrop st2 = st2) ∧
    (removeDragAndDrop (setupDragAndDrop reg0 true 7)).listeners = reg0.listeners ∧
    (removeDragAndDrop (setupDragAndDrop reg0 true 7)).dragHandlers = none ∧
    removeDragAndDrop (removeDragAndDrop (setupDragAndDrop reg0 true 7)) =
      removeDragAndDrop (setupDragAndDrop reg0 true 7) :=
  C9_confirmed reg0 true 7 (by decide)

/-- Claim C10, confirmed.  `getElementFromPoint` called with an exclude
element leaves every element's inline display — in particular the exclude
element's — exactly as it was before the call; the display is the only
element property the function touches, so nothing else changes either. -/
theorem C10_confirmed (dom : Dom) (disp : Nat → String) (x y : Int) (e i : Nat) :
    (getElementFromPoint dom disp x y (some e)).1 i = disp i := by
  rw [gefp_restores dom disp x y (some e)]
